import Mathlib

/-!
Verification of the NIBOR Terminal launcher scripts.

The repository consists of four launcher scripts and one shortcut-creation
batch file (plus documentation):

* `NIBOR_Recon.pyw` — computes the directory of the launcher file and spawns
  `[sys.executable, "main.py"]` with that directory as the child working
  directory (console window suppressed on win32).
* `src/unnamed/part_000` — a second `NIBOR_Recon.pyw`-style launcher that
  instead fixes the child working directory to
  `Path.home() / "OneDrive - Swedbank" / "GroupTreasury-ShortTermFunding - Documents"
  / "Samba" / "Samba" / "Gitnewnew"` and spawns `[sys.executable, "main.py"]`
  from there.
* the `.pyw` launcher embedded in `src/unnamed/part_001` — `os.chdir` to the
  launcher directory, prepends it to `sys.path` when absent, then
  `runpy.run_path(<dir>/main.py, run_name="__main__")` in-process.
* `start_nibor.vbs` — sets the shell current directory to the script
  directory and runs `"pythonw main.py"` hidden, without waiting.
* `create_shortcut.bat` (`src/unnamed/part_002`) — writes a temporary
  VBScript `%TEMP%\CreateShortcut.vbs` that creates
  `%USERPROFILE%\Desktop\NIBOR Terminal.lnk` targeting `start_nibor.vbs` in
  the batch directory, with that directory as working directory; the icon is
  `assets\icon.ico` from the batch directory when it exists (`if exist`),
  otherwise `pythonw.exe` as found on `PATH` (`for %%I in (pythonw.exe) ...
  %%~$PATH:I`); it runs the VBScript via `cscript`, deletes the temporary
  file, prints a confirmation banner and pauses.

We embed each script as a pure function from its invocation environment to a
trace of observable effects, and we give the traces a small semantics: the
list of program invocations a trace performs (with the effective working
directory of each) and the file-system change a trace makes.
-/

namespace NiborLaunch

/-- A file-system path, represented as its list of components. -/
abbrev FsPath := List String

/-- `os.path.dirname` on an absolute file path: drop the final component.
Also models `fso.GetParentFolderName` in VBScript and `%~dp0` in batch. -/
def dirname (p : FsPath) : FsPath := p.dropLast

/-- The invocation environment of a script: everything outside the script
itself that its behavior can read. `home` is `%USERPROFILE%` alias
`Path.home()`; `pythonExe` is `sys.executable`; `sysPath` is the initial
`sys.path`; `fsExists` answers `if exist` checks; `pathSearch` resolves an
executable name against `PATH` (`%%~$PATH:I`, empty when not found). -/
structure Env where
  launcherPath : FsPath
  cwd : FsPath
  home : FsPath
  temp : FsPath
  pythonExe : String
  win32 : Bool
  sysPath : List FsPath
  fsExists : FsPath → Bool
  pathSearch : String → Option FsPath

/-- Observable effects of the scripts.  The grammar also has constructors for
the application-logic effects the documentation talks about (Excel reading,
Bloomberg queries, UI pages) and for concurrency constructs (threads, locks),
so that a trace NOT containing them is a meaningful statement.
`spawn` has an optional explicit child working directory (`Popen(cwd=...)`);
`none` means the child inherits the current directory (`WshShell.Run`).
Running `cscript` on the generated `CreateShortcut.vbs` is modeled by the
effect of that generated script, `createShortcut`. -/
inductive Effect where
  | spawn (exe : String) (args : List String) (childCwd : Option FsPath)
      (wait : Bool) (hidden : Bool)
  | chdir (dir : FsPath)
  | addSysPath (dir : FsPath)
  | runInProcess (script : FsPath) (runName : String)
  | writeTempFile (p : FsPath)
  | checkExists (p : FsPath)
  | createShortcut (lnk target workDir : FsPath) (icon : Option FsPath)
      (descr : String)
  | deleteFile (p : FsPath)
  | consolePrint (msg : String)
  | pause
  | readExcel (p : FsPath)
  | bloombergQuery (q : String)
  | buildUIPage (pageName : String)
  | startThread (threadName : String)
  | acquireLock (lockName : String)
  deriving DecidableEq, Repr

/-- `src/NIBOR_Recon.pyw`: `script_dir = dirname(abspath(__file__))`, then
`Popen([sys.executable, "main.py"], cwd=script_dir,
creationflags=CREATE_NO_WINDOW if win32 else 0)`. -/
def NIBOR_Recon_pyw (env : Env) : List Effect :=
  let script_dir := dirname env.launcherPath
  [Effect.spawn env.pythonExe ["main.py"] (some script_dir) false env.win32]

/-- The OneDrive project directory hard-wired in `src/unnamed/part_000`:
`Path.home() / "OneDrive - Swedbank" / "GroupTreasury-ShortTermFunding -
Documents" / "Samba" / "Samba" / "Gitnewnew"`. -/
def oneDriveProjectDir (home : FsPath) : FsPath :=
  home ++ ["OneDrive - Swedbank", "GroupTreasury-ShortTermFunding - Documents",
    "Samba", "Samba", "Gitnewnew"]

/-- `src/unnamed/part_000`: `project_dir = Path.home() / ...`, then
`Popen([sys.executable, "main.py"], cwd=str(project_dir),
creationflags=CREATE_NO_WINDOW if win32 else 0)`.  No existence check. -/
def launcher_part000 (env : Env) : List Effect :=
  let project_dir := oneDriveProjectDir env.home
  [Effect.spawn env.pythonExe ["main.py"] (some project_dir) false env.win32]

/-- The `.pyw` launcher embedded in `src/unnamed/part_001`:
`script_dir = dirname(abspath(__file__))`; `os.chdir(script_dir)`;
`sys.path.insert(0, script_dir)` when absent; then
`runpy.run_path(join(script_dir, "main.py"), run_name="__main__")`. -/
def launcher_part001 (env : Env) : List Effect :=
  let script_dir := dirname env.launcherPath
  Effect.chdir script_dir ::
    (if script_dir ∈ env.sysPath then [] else [Effect.addSysPath script_dir]) ++
    [Effect.runInProcess (script_dir ++ ["main.py"]) "__main__"]

/-- `src/start_nibor.vbs`: `scriptDir =
fso.GetParentFolderName(WScript.ScriptFullName)`;
`WshShell.CurrentDirectory = scriptDir`;
`WshShell.Run "pythonw main.py", 0, False` (hidden window, no wait,
child inherits the current directory). -/
def start_nibor_vbs (env : Env) : List Effect :=
  let scriptDir := dirname env.launcherPath
  [Effect.chdir scriptDir,
   Effect.spawn "pythonw" ["main.py"] none false true]

/-- `%TEMP%\CreateShortcut.vbs`, the temporary script the batch file writes. -/
def tempVbs (env : Env) : FsPath := env.temp ++ ["CreateShortcut.vbs"]

/-- `%USERPROFILE%\Desktop\NIBOR Terminal.lnk`, the shortcut the batch file
creates (`SHORTCUT_NAME=NIBOR Terminal`, `DESKTOP=%USERPROFILE%\Desktop`). -/
def desktopLnk (env : Env) : FsPath :=
  env.home ++ ["Desktop", "NIBOR Terminal.lnk"]

/-- `%SCRIPT_DIR%assets\icon.ico`, the custom icon the batch file checks. -/
def iconFile (env : Env) : FsPath :=
  dirname env.launcherPath ++ ["assets", "icon.ico"]

/-- `create_shortcut.bat` (`src/unnamed/part_002`): writes the temporary
VBScript (whose lines fix the link file, target, working directory,
description and icon), choosing the icon line by `if exist
"%SCRIPT_DIR%assets\icon.ico"` with fallback to `pythonw.exe` on `PATH`;
runs it with `cscript` (modeled by its effect, `createShortcut`); deletes the
temporary file; prints the banner and pauses. -/
def create_shortcut_bat (env : Env) : List Effect :=
  let script_dir := dirname env.launcherPath
  [Effect.checkExists (iconFile env),
   Effect.writeTempFile (tempVbs env),
   Effect.createShortcut (desktopLnk env) (script_dir ++ ["start_nibor.vbs"])
     script_dir
     (if env.fsExists (iconFile env) then some (iconFile env)
      else env.pathSearch "pythonw.exe")
     "NIBOR Calculation Terminal",
   Effect.deleteFile (tempVbs env),
   Effect.consolePrint "Shortcut created on Desktop!",
   Effect.pause]

/-! ## Trace semantics: invocations -/

/-- A program invocation a trace performs: either a child process started
through an interpreter executable, or a script executed in-process
(`runpy.run_path`).  Each records the effective working directory. -/
inductive Invocation where
  | viaInterpreter (exe : String) (args : List String) (workDir : FsPath)
  | inProcess (script : FsPath) (workDir : FsPath)
  deriving DecidableEq, Repr

/-- The working directory of an invocation. -/
def Invocation.workDir : Invocation → FsPath
  | .viaInterpreter _ _ d => d
  | .inProcess _ d => d

/-- The script files an invocation resolves to: relative arguments resolved
against the working directory for an interpreter invocation, the explicit
script path for an in-process run. -/
def Invocation.resolvedScripts : Invocation → List FsPath
  | .viaInterpreter _ args d => args.map (fun a => d ++ [a])
  | .inProcess s _ => [s]

/-- The invocations a trace performs, given the current directory at its
start: `chdir` updates the current directory, `spawn` starts a child in its
explicit working directory or else the current one, `runInProcess` runs in
the current directory. -/
def invocationsFrom (cur : FsPath) : List Effect → List Invocation
  | [] => []
  | Effect.chdir d :: rest => invocationsFrom d rest
  | Effect.spawn exe args childCwd _ _ :: rest =>
      Invocation.viaInterpreter exe args (childCwd.getD cur) ::
        invocationsFrom cur rest
  | Effect.runInProcess s _ :: rest =>
      Invocation.inProcess s cur :: invocationsFrom cur rest
  | _ :: rest => invocationsFrom cur rest

/-- The working directories of the invocations a trace performs. -/
def invocationDirs (cur : FsPath) (tr : List Effect) : List FsPath :=
  (invocationsFrom cur tr).map Invocation.workDir

/-- The script files the invocations of a trace resolve to. -/
def invocationTargets (cur : FsPath) (tr : List Effect) : List (List FsPath) :=
  (invocationsFrom cur tr).map Invocation.resolvedScripts

/-! ## Trace semantics: file-system change -/

/-- The file set after one effect: temporary-file writes and shortcut
creation add a file, `deleteFile` removes one; nothing else touches the
file system. -/
def applyEffect (fs : List FsPath) : Effect → List FsPath
  | Effect.writeTempFile p => fs.insert p
  | Effect.createShortcut lnk _ _ _ _ => fs.insert lnk
  | Effect.deleteFile p => fs.filter (· ≠ p)
  | _ => fs

/-- The file set after a whole trace. -/
def runEffects (fs : List FsPath) (tr : List Effect) : List FsPath :=
  tr.foldl applyEffect fs

/-! ## Classifying effects -/

/-- Effects that are launcher glue or shortcut creation, as opposed to
application logic (Excel, Bloomberg, UI) or concurrency constructs. -/
def Effect.isGlue : Effect → Bool
  | .readExcel _ => false
  | .bloombergQuery _ => false
  | .buildUIPage _ => false
  | .startThread _ => false
  | .acquireLock _ => false
  | _ => true

/-- Is this effect a child-process spawn? -/
def Effect.isSpawn : Effect → Bool
  | .spawn .. => true
  | _ => false

/-- Is this effect an existence check? -/
def Effect.isCheckExists : Effect → Bool
  | .checkExists _ => true
  | _ => false

/-- The number of child processes a trace spawns. -/
def spawnCount (tr : List Effect) : Nat :=
  (tr.filter Effect.isSpawn).length

/-- Does every spawned child run without being waited on? -/
def noWaiting (tr : List Effect) : Bool :=
  tr.all fun e => match e with
    | .spawn _ _ _ w _ => !w
    | _ => true

/-- Does an invocation invoke (only) the script `main.py`? -/
def Invocation.isMainPy : Invocation → Bool
  | .viaInterpreter _ args _ => args == ["main.py"]
  | .inProcess s _ => s.getLast? == some "main.py"

/-- The shortcut records a trace creates:
(link file, target, working directory, icon). -/
def shortcutsCreated : List Effect → List (FsPath × FsPath × FsPath × Option FsPath)
  | [] => []
  | Effect.createShortcut lnk t w i _ :: rest => (lnk, t, w, i) :: shortcutsCreated rest
  | _ :: rest => shortcutsCreated rest

/-- Erase the icon field of a shortcut creation, leaving every other effect
unchanged: used to state that the batch behavior is file-system independent
apart from the icon choice. -/
def eraseIconLoc : Effect → Effect
  | Effect.createShortcut lnk t w _ d => Effect.createShortcut lnk t w none d
  | e => e

/-- Is this effect a thread or lock creation? -/
def Effect.isConcurrencyPrimitive : Effect → Bool
  | .startThread _ => true
  | .acquireLock _ => true
  | _ => false

/-- A concrete environment: launcher in `C:\Proj`, user profile
`C:\Users\sam`, empty `sys.path`, no file exists, empty `PATH` search. -/
def env0 : Env :=
  ⟨["C:", "Proj", "NIBOR_Recon.pyw"], ["C:", "Windows"], ["C:", "Users", "sam"],
   ["C:", "Temp"], "python.exe", true, [], fun _ => false, fun _ => none⟩

/-- Like `env0` but every file exists (in particular `assets\icon.ico`). -/
def envIcon : Env :=
  ⟨["C:", "Proj", "NIBOR_Recon.pyw"], ["C:", "Windows"], ["C:", "Users", "sam"],
   ["C:", "Temp"], "python.exe", true, [], fun _ => true, fun _ => none⟩

/-- Like `env0` but invoked from a different current working directory and a
different user profile. -/
def envA : Env :=
  ⟨["C:", "Proj", "NIBOR_Recon.pyw"], ["D:", "elsewhere"], ["C:", "Users", "eve"],
   ["C:", "Temp"], "python.exe", true, [], fun _ => false, fun _ => none⟩

/-! ## Helper lemmas -/

/-- The `part_001` launcher performs exactly one invocation — running
`main.py` from the launcher directory in-process — whatever the starting
current directory and whether or not the directory was already on
`sys.path`. -/
theorem invocationsFrom_part001 (cur : FsPath) (env : Env) :
    invocationsFrom cur (launcher_part001 env) =
      [Invocation.inProcess (dirname env.launcherPath ++ ["main.py"])
        (dirname env.launcherPath)] := by
  simp only [launcher_part001, invocationsFrom]
  split <;> simp [invocationsFrom]

/-- The desktop shortcut and the temporary VBScript are distinct files: their
final path components differ. -/
theorem desktopLnk_ne_tempVbs (env : Env) : desktopLnk env ≠ tempVbs env := by
  intro hEq
  have h := congrArg List.getLast? hEq
  simp [desktopLnk, tempVbs, List.getLast?_append] at h

/-! ## Theorems -/

/-- C1: every launcher script, on any environment, performs exactly one
invocation: it runs the script `main.py` from one specific project directory
(the launcher directory for `NIBOR_Recon.pyw`, the `part_001` launcher and
`start_nibor.vbs`; the hard-wired OneDrive project directory for
`part_000`), and no launcher invokes any program other than `main.py` via
the Python interpreter. -/
theorem launchers_invoke_only_main_py (env : Env) :
    invocationsFrom env.cwd (NIBOR_Recon_pyw env) =
      [Invocation.viaInterpreter env.pythonExe ["main.py"]
        (dirname env.launcherPath)] ∧
    invocationsFrom env.cwd (launcher_part000 env) =
      [Invocation.viaInterpreter env.pythonExe ["main.py"]
        (oneDriveProjectDir env.home)] ∧
    invocationsFrom env.cwd (launcher_part001 env) =
      [Invocation.inProcess (dirname env.launcherPath ++ ["main.py"])
        (dirname env.launcherPath)] ∧
    invocationsFrom env.cwd (start_nibor_vbs env) =
      [Invocation.viaInterpreter "pythonw" ["main.py"]
        (dirname env.launcherPath)] ∧
    (invocationsFrom env.cwd (NIBOR_Recon_pyw env)).all Invocation.isMainPy = true ∧
    (invocationsFrom env.cwd (launcher_part000 env)).all Invocation.isMainPy = true ∧
    (invocationsFrom env.cwd (launcher_part001 env)).all Invocation.isMainPy = true ∧
    (invocationsFrom env.cwd (start_nibor_vbs env)).all Invocation.isMainPy = true := by
  refine ⟨rfl, rfl, invocationsFrom_part001 env.cwd env, rfl, rfl, rfl, ?_, rfl⟩
  simp [invocationsFrom_part001, Invocation.isMainPy, List.getLast?_concat]

/-- C2 counterexample: the claim that no source file checks existence or
recovers is false for the icon-file-missing condition. On a concrete
environment the shortcut batch file performs an existence check on
`assets\icon.ico`, and its behavior differs between the environment where
the icon file is missing and the one where it exists: it recovers from the
missing icon by falling back to the `PATH` lookup of `pythonw.exe`. -/
theorem shortcut_bat_checks_icon_existence :
    Effect.checkExists (iconFile env0) ∈ create_shortcut_bat env0 ∧
    create_shortcut_bat envIcon ≠ create_shortcut_bat env0 := by
  constructor
  · simp [create_shortcut_bat]
  · decide

/-- C2 (amended): no Python or VBS launcher contains failure handling or an
existence check — each launcher trace is entirely independent of the file
system and of the `PATH` lookup, and contains no existence-check effect —
and the only failure handling in the shortcut batch file is its icon
existence check: apart from the icon location of the created shortcut, the
batch trace is also independent of the file system. -/
theorem launchers_no_failure_handling (env1 env2 : Env)
    (h1 : env1.launcherPath = env2.launcherPath) (h2 : env1.cwd = env2.cwd)
    (h3 : env1.home = env2.home) (h4 : env1.temp = env2.temp)
    (h5 : env1.pythonExe = env2.pythonExe) (h6 : env1.win32 = env2.win32)
    (h7 : env1.sysPath = env2.sysPath) :
    NIBOR_Recon_pyw env1 = NIBOR_Recon_pyw env2 ∧
    launcher_part000 env1 = launcher_part000 env2 ∧
    launcher_part001 env1 = launcher_part001 env2 ∧
    start_nibor_vbs env1 = start_nibor_vbs env2 ∧
    (create_shortcut_bat env1).map eraseIconLoc =
      (create_shortcut_bat env2).map eraseIconLoc ∧
    (NIBOR_Recon_pyw env1).all (fun e => ! e.isCheckExists) = true ∧
    (launcher_part000 env1).all (fun e => ! e.isCheckExists) = true ∧
    (launcher_part001 env1).all (fun e => ! e.isCheckExists) = true ∧
    (start_nibor_vbs env1).all (fun e => ! e.isCheckExists) = true := by
  refine ⟨?_, ?_, ?_, ?_, ?_, rfl, rfl, ?_, rfl⟩
  · simp [NIBOR_Recon_pyw, h1, h5, h6]
  · simp [launcher_part000, h3, h5, h6]
  · simp [launcher_part001, h1, h7]
  · simp [start_nibor_vbs, h1]
  · simp [create_shortcut_bat, eraseIconLoc, iconFile, tempVbs, desktopLnk,
      h1, h3, h4]
  · simp only [launcher_part001]
    split <;> rfl

/-- C2 witness for `launchers_no_failure_handling`: the hypotheses hold for
`env0` and `envIcon` (which differ exactly in their file systems), and the
four launcher traces agree between the two environments. -/
theorem launchers_no_failure_handling_witness :
    (env0.launcherPath = envIcon.launcherPath ∧ env0.cwd = envIcon.cwd ∧
     env0.home = envIcon.home ∧ env0.temp = envIcon.temp ∧
     env0.pythonExe = envIcon.pythonExe ∧ env0.win32 = envIcon.win32 ∧
     env0.sysPath = envIcon.sysPath) ∧
    NIBOR_Recon_pyw env0 = NIBOR_Recon_pyw envIcon := by
  exact ⟨⟨rfl, rfl, rfl, rfl, rfl, rfl, rfl⟩,
    (launchers_no_failure_handling env0 envIcon rfl rfl rfl rfl rfl rfl rfl).1⟩

/-- C3: on every environment the shortcut batch file creates exactly one
shortcut, `NIBOR Terminal.lnk` on the invoking user Desktop
(`%USERPROFILE%\Desktop`), targeting `start_nibor.vbs` in the batch file
directory with that same directory as working directory; its icon is
`assets\icon.ico` from that directory when that file exists and otherwise
the `PATH` lookup of `pythonw.exe`. -/
theorem create_shortcut_bat_creates_one_shortcut (env : Env) :
    shortcutsCreated (create_shortcut_bat env) =
      [(desktopLnk env,
        dirname env.launcherPath ++ ["start_nibor.vbs"],
        dirname env.launcherPath,
        if env.fsExists (iconFile env) then some (iconFile env)
        else env.pathSearch "pythonw.exe")] ∧
    desktopLnk env = env.home ++ ["Desktop", "NIBOR Terminal.lnk"] :=
  ⟨rfl, rfl⟩

/-- C4: every executable source file reduces to launcher glue or shortcut
creation: every effect of every trace is glue (none reads Excel, queries
Bloomberg or builds a UI page), each of the four launchers performs an
invocation of `main.py`, and the batch file creates a shortcut. -/
theorem sources_reduce_to_launcher_glue (env : Env) :
    (NIBOR_Recon_pyw env).all Effect.isGlue = true ∧
    (launcher_part000 env).all Effect.isGlue = true ∧
    (launcher_part001 env).all Effect.isGlue = true ∧
    (start_nibor_vbs env).all Effect.isGlue = true ∧
    (create_shortcut_bat env).all Effect.isGlue = true ∧
    (invocationsFrom env.cwd (NIBOR_Recon_pyw env)).any Invocation.isMainPy = true ∧
    (invocationsFrom env.cwd (launcher_part000 env)).any Invocation.isMainPy = true ∧
    (invocationsFrom env.cwd (launcher_part001 env)).any Invocation.isMainPy = true ∧
    (invocationsFrom env.cwd (start_nibor_vbs env)).any Invocation.isMainPy = true ∧
    (shortcutsCreated (create_shortcut_bat env)).length = 1 := by
  refine ⟨rfl, rfl, ?_, rfl, rfl, rfl, rfl, ?_, rfl, rfl⟩
  · simp only [launcher_part001]
    split <;> rfl
  · simp [invocationsFrom_part001, Invocation.isMainPy, List.getLast?_concat]

/-- C5: no source file creates a thread, lock or any other concurrency
primitive; each spawning launcher spawns exactly one child process and never
waits on it, and the `part_001` launcher spawns no child at all, running
`main.py` in-process instead. -/
theorem no_concurrency_coordination (env : Env) :
    (NIBOR_Recon_pyw env ++ launcher_part000 env ++ launcher_part001 env ++
      start_nibor_vbs env ++ create_shortcut_bat env).all
      (fun e => ! e.isConcurrencyPrimitive) = true ∧
    spawnCount (NIBOR_Recon_pyw env) = 1 ∧
    noWaiting (NIBOR_Recon_pyw env) = true ∧
    spawnCount (launcher_part000 env) = 1 ∧
    noWaiting (launcher_part000 env) = true ∧
    spawnCount (start_nibor_vbs env) = 1 ∧
    noWaiting (start_nibor_vbs env) = true ∧
    spawnCount (launcher_part001 env) = 0 ∧
    invocationsFrom env.cwd (launcher_part001 env) =
      [Invocation.inProcess (dirname env.launcherPath ++ ["main.py"])
        (dirname env.launcherPath)] := by
  refine ⟨?_, rfl, rfl, rfl, rfl, rfl, rfl, ?_, invocationsFrom_part001 env.cwd env⟩
  · simp only [launcher_part001]
    split <;> rfl
  · simp only [spawnCount, launcher_part001]
    split <;> rfl

/-- C6: for the script-relative launchers the working directory handed to
`main.py` — and the script file that resolves to — depends only on the
location of the launcher file: two invocations of the same launcher from
different current directories, different user profiles or different Python
installations yield identical invocation directories and targets. -/
theorem script_relative_launchers_depend_only_on_location (env1 env2 : Env)
    (h : env1.launcherPath = env2.launcherPath) :
    invocationDirs env1.cwd (NIBOR_Recon_pyw env1) =
      invocationDirs env2.cwd (NIBOR_Recon_pyw env2) ∧
    invocationTargets env1.cwd (NIBOR_Recon_pyw env1) =
      invocationTargets env2.cwd (NIBOR_Recon_pyw env2) ∧
    invocationDirs env1.cwd (launcher_part001 env1) =
      invocationDirs env2.cwd (launcher_part001 env2) ∧
    invocationTargets env1.cwd (launcher_part001 env1) =
      invocationTargets env2.cwd (launcher_part001 env2) ∧
    invocationDirs env1.cwd (start_nibor_vbs env1) =
      invocationDirs env2.cwd (start_nibor_vbs env2) ∧
    invocationTargets env1.cwd (start_nibor_vbs env1) =
      invocationTargets env2.cwd (start_nibor_vbs env2) := by
  refine ⟨?_, ?_, ?_, ?_, ?_, ?_⟩
  · simp [invocationDirs, NIBOR_Recon_pyw, invocationsFrom,
      Invocation.workDir, h]
  · simp [invocationTargets, NIBOR_Recon_pyw, invocationsFrom,
      Invocation.resolvedScripts, h]
  · simp only [invocationDirs, invocationsFrom_part001, h]
  · simp only [invocationTargets, invocationsFrom_part001, h]
  · simp [invocationDirs, start_nibor_vbs, invocationsFrom,
      Invocation.workDir, h]
  · simp [invocationTargets, start_nibor_vbs, invocationsFrom,
      Invocation.resolvedScripts, h]

/-- C6 witness: `env0` and `envA` share a launcher location but differ in
current directory and user profile, and the invocation directories of each
script-relative launcher agree between them. -/
theorem script_relative_launchers_witness :
    env0.launcherPath = envA.launcherPath ∧
    invocationDirs env0.cwd (NIBOR_Recon_pyw env0) =
      invocationDirs envA.cwd (NIBOR_Recon_pyw envA) := by
  exact ⟨rfl,
    (script_relative_launchers_depend_only_on_location env0 envA rfl).1⟩

/-- C7: the `part_000` launcher runs `main.py` with the child working
directory fixed to the hard-wired OneDrive project directory under the
invoking user home directory; that directory depends only on the home
directory (never on the launcher location or the invocation directory), and
the trace contains no existence check before spawning. -/
theorem part000_runs_main_from_onedrive_dir (env1 env2 : Env)
    (h : env1.home = env2.home) :
    invocationDirs env1.cwd (launcher_part000 env1) =
      invocationDirs env2.cwd (launcher_part000 env2) ∧
    invocationDirs env1.cwd (launcher_part000 env1) =
      [env1.home ++ ["OneDrive - Swedbank",
        "GroupTreasury-ShortTermFunding - Documents", "Samba", "Samba",
        "Gitnewnew"]] ∧
    (invocationsFrom env1.cwd (launcher_part000 env1)).all
      Invocation.isMainPy = true ∧
    (launcher_part000 env1).all (fun e => ! e.isCheckExists) = true ∧
    spawnCount (launcher_part000 env1) = 1 := by
  refine ⟨?_, rfl, rfl, rfl, rfl⟩
  simp [invocationDirs, launcher_part000, invocationsFrom, Invocation.workDir,
    oneDriveProjectDir, h]

/-- C7 witness: `env0` and `envIcon` share a home directory, and the
`part_000` invocation directory agrees between them and equals the OneDrive
project directory of that home. -/
theorem part000_runs_main_witness :
    env0.home = envIcon.home ∧
    invocationDirs env0.cwd (launcher_part000 env0) =
      [env0.home ++ ["OneDrive - Swedbank",
        "GroupTreasury-ShortTermFunding - Documents", "Samba", "Samba",
        "Gitnewnew"]] := by
  exact ⟨rfl, (part000_runs_main_from_onedrive_dir env0 envIcon rfl).2.1⟩

/-- C8: the shortcut batch file leaves no file-system state changed other
than the desktop shortcut: starting from any file set not containing the
temporary `%TEMP%\CreateShortcut.vbs`, the files after a complete run are
exactly the initial files plus `NIBOR Terminal.lnk`, and the temporary
VBScript is gone. -/
theorem shortcut_bat_frame (env : Env) (fs : List FsPath)
    (h : tempVbs env ∉ fs) :
    (∀ p, p ∈ runEffects fs (create_shortcut_bat env) ↔
      p ∈ fs ∨ p = desktopLnk env) ∧
    tempVbs env ∉ runEffects fs (create_shortcut_bat env) := by
  have hne := desktopLnk_ne_tempVbs env
  constructor
  · intro p
    simp only [runEffects, create_shortcut_bat, List.foldl_cons, List.foldl_nil,
      applyEffect]
    simp only [List.mem_filter, List.mem_insert_iff, decide_eq_true_eq]
    constructor
    · rintro ⟨hp | hp | hp, hnp⟩
      · exact Or.inr hp
      · exact (hnp hp).elim
      · exact Or.inl hp
    · rintro (hp | hp)
      · exact ⟨Or.inr (Or.inr hp), fun hEq => h (hEq ▸ hp)⟩
      · exact ⟨Or.inl hp, hp ▸ hne⟩
  · intro hmem
    simp only [runEffects, create_shortcut_bat, List.foldl_cons, List.foldl_nil,
      applyEffect, List.mem_filter, decide_eq_true_eq] at hmem
    exact hmem.2 rfl

/-- C8 witness: on the empty initial file set and `env0`, the run of the
batch file contains the desktop shortcut and not the temporary VBScript. -/
theorem shortcut_bat_frame_witness :
    tempVbs env0 ∉ ([] : List FsPath) ∧
    (desktopLnk env0 ∈ runEffects [] (create_shortcut_bat env0) ↔
      desktopLnk env0 ∈ ([] : List FsPath) ∨ desktopLnk env0 = desktopLnk env0) ∧
    tempVbs env0 ∉ runEffects [] (create_shortcut_bat env0) := by
  refine ⟨List.not_mem_nil _, ?_, ?_⟩
  · exact (shortcut_bat_frame env0 [] (List.not_mem_nil _)).1 (desktopLnk env0)
  · exact (shortcut_bat_frame env0 [] (List.not_mem_nil _)).2

end NiborLaunch
